import Mathlib

/-!
Shallow embedding of the CM11A transaction-engine (src/src/CM11A.js).

The engine is a mutable prototype object; we model its state as the
structure `CM11A` and each of its methods (`Start`, `Stop`, `Stopped`,
`RunTransaction`, `RunQueuedTransaction`, `SerialWrite`, `SerialRead`,
`CancelTimer`, `Timeout`, `SetEvent`, `NotifyUnitStatus`, `NotifyStatus`)
as a pure function from the state to a new state together with a list of
observable effects (bytes written, serial close requests, `run()` calls
on transactions, timer arming/clearing, listener invocations).

Transactions themselves live in `CM11ATransactions.js`, and the protocol
byte table in `CM11ACodes.js`; neither file is part of the sources under
verification, so transactions are represented by the tagged value `Transaction`
(the engine treats them opaquely) and the poll-marker bytes by the
parameter structure `RxCodes` (modelled from the spec, see below).

Timers: JavaScript `setTimeout` returns a handle for a pending timeout,
and `clearTimeout` cancels it.  We model the host timer table explicitly:
`liveTimers` is the list of pending (outstanding) timeout handles and
`nextTimerId` a fresh-handle counter; `CM11A.timer` is the engine's own
`this.timer` field.  `setTimeout` appends a fresh handle to `liveTimers`;
`clearTimeout h` removes `h`.
-/

/-- One protocol exchange, as constructed by the engine or its callers.
The engine only stores, starts and queues these; their internal state
machines live in `CM11ATransactions.js` (outside the verified sources),
so the payload recorded here is exactly what `CM11A.js` passes to the
constructors. -/
inductive Transaction where
  | command (functionCode : Nat) (units : List Nat) (level : Option Nat)
  | statusRequest
  | pollResponse (data : List Nat)
  | setClock
  | eepromAddress (data : List Nat)
deriving DecidableEq, Repr

/-- The event object delivered to the `unitStatus` listener: literally the
fields of the object literal built in `NotifyUnitStatus`
(`{'units': units, 'x10Function': x10Function, 'level': level}`).
Note it has no house-code field. -/
structure UnitStatusEvent where
  units : List Nat
  x10Function : Nat
  level : Option Nat
deriving DecidableEq, Repr

/-- Modelled from the spec: the poll markers of `cm11aCodes.rx`
(`POLL_REQUEST`, `POLL_POWER_FAIL`, `POLL_EEPROM_ADDRESS`).
`CM11ACodes.js` is not among the sources under verification; the spec
describes the Code Table as an external read-only mapping from the three
poll markers to byte values, so the byte values are parameters here. -/
structure RxCodes where
  POLL_REQUEST : Nat
  POLL_POWER_FAIL : Nat
  POLL_EEPROM_ADDRESS : Nat
deriving DecidableEq, Repr

/-- The argument passed as a callback to `SetEvent`: either a function
(identified by an id, since the engine never inspects it, only stores and
later invokes it) or some non-function value (`typeof(callBack) !==
'function'`). -/
inductive CBArg where
  | fn (id : Nat)
  | notFn
deriving DecidableEq, Repr

/-- The `events` object of the engine: one optional callback slot per
event kind (`unitStatus`, `status`, `close`), each holding the id of the
registered function, `none` for `undefined`. -/
structure Events where
  unitStatus : Option Nat
  status : Option Nat
  close : Option Nat
deriving DecidableEq, Repr

/-- `this.events.hasOwnProperty(event)`: the events object has exactly
the three keys declared in the prototype. -/
def eventsHasOwnProperty (event : String) : Bool :=
  event = "unitStatus" || event = "status" || event = "close"

/-- The `serial` field: initially a plain empty object, replaced by a
`SerialPort` when `Start` opens the device. -/
inductive SerialState where
  | uninit
  | opened (device : String)
deriving DecidableEq, Repr

/-- Observable effects of an engine method call. -/
inductive Effect where
  /-- `new SerialPort(device, {baudRate: 4800})` together with the
  `data`/`error`/`close` subscriptions made in `Start`. -/
  | openSerial (device : String)
  /-- `this.serial.close()`. -/
  | closeSerial
  /-- `trans.run()` invoked: the transaction was started as current. -/
  | startTrans (t : Transaction)
  /-- `this.serial.write(data, ...)`. -/
  | serialWriteData (data : List Nat)
  /-- `setTimeout(..., ms)` armed, returning handle `h`. -/
  | armTimer (h : Nat) (ms : Nat)
  /-- `clearTimeout(h)`. -/
  | clearTimer (h : Nat)
  /-- `currentTrans.handleMessage(data)` invoked (bytes offered, or `[]`
  on a fired timeout). -/
  | offerMessage (t : Transaction) (data : List Nat)
  /-- the `close` listener invoked. -/
  | invokeClose (cb : Nat)
  /-- the `unitStatus` listener invoked with the event object. -/
  | invokeUnitStatus (cb : Nat) (e : UnitStatusEvent)
  /-- the `status` listener invoked. -/
  | invokeStatus (cb : Nat) (status : List Nat)
deriving DecidableEq, Repr

/-- The engine state: the fields of the `CM11A` prototype object, plus
the host timer table (`liveTimers`, `nextTimerId`) used to model
`setTimeout`/`clearTimeout`. -/
structure CM11A where
  serial : SerialState
  running : Bool
  currentTrans : Option Transaction
  transactionQueue : List Transaction
  timer : Option Nat
  events : Events
  liveTimers : List Nat
  nextTimerId : Nat
deriving DecidableEq, Repr

/-- `NewCm11A()`: a fresh engine with the prototype's initial fields. -/
def NewCm11A : CM11A :=
  { serial := .uninit
    running := false
    currentTrans := none
    transactionQueue := []
    timer := none
    events := { unitStatus := none, status := none, close := none }
    liveTimers := []
    nextTimerId := 0 }

/-- Store a callback id in the named slot of the events object
(the assignment `this.events[event] = callBack`); only called with one
of the three recognized names. -/
def setEventSlot (e : Events) (event : String) (id : Nat) : Events :=
  if event = "unitStatus" then { e with unitStatus := some id }
  else if event = "status" then { e with status := some id }
  else { e with close := some id }

/-- `SetEvent(event, callBack)` (exposed as `cm11a.on`): throws on an
unknown event name, throws on a non-function callback, otherwise stores
the callback in that event's slot. -/
def SetEvent (s : CM11A) (event : String) (callBack : CBArg) :
    Except String CM11A :=
  if eventsHasOwnProperty event = false then
    .error ("Invalid event: " ++ event)
  else
    match callBack with
    | .notFn => .error "Expected function for callBack."
    | .fn id => .ok { s with events := setEventSlot s.events event id }

/-- `Start(device)`: if not running, open the serial port, subscribe to
its `data`/`error`/`close` signals and set `running = true`; returns
`this.running`. -/
def Start (s : CM11A) (device : String) : CM11A × List Effect × Bool :=
  if s.running = false then
    let s2 : CM11A := { s with serial := .opened device, running := true }
    (s2, [.openSerial device], s2.running)
  else
    (s, [], s.running)

/-- `Stop()`: with a current transaction, only clear `running` (the
transaction completes gracefully); otherwise close the serial port. -/
def Stop (s : CM11A) : CM11A × List Effect :=
  match s.currentTrans with
  | some _ => ({ s with running := false }, [])
  | none => (s, [.closeSerial])

/-- `Stopped()`: the serial port's `close` signal handler; clears
`running` and invokes the `close` listener if one is registered. -/
def Stopped (s : CM11A) : CM11A × List Effect :=
  ({ s with running := false },
    match s.events.close with
    | some cb => [.invokeClose cb]
    | none => [])

/-- `RunTransaction(trans)`: while running, start `trans` (make it
current and call its `run()`) if the current slot is empty, else push it
on the queue; while not running, do nothing. The `.then` continuations
attached to `run()` are modelled by `OnRunResolved`/`OnRunRejected`
below, invoked when the transaction's future settles. -/
def RunTransaction (s : CM11A) (trans : Transaction) : CM11A × List Effect :=
  if s.running then
    match s.currentTrans with
    | none => ({ s with currentTrans := some trans }, [.startTrans trans])
    | some _ => ({ s with transactionQueue := s.transactionQueue ++ [trans] }, [])
  else
    (s, [])

/-- `RunQueuedTransaction()`: clear the current slot; if running, shift
the queue head (if any) into `RunTransaction`; if not running, close the
serial port. -/
def RunQueuedTransaction (s : CM11A) : CM11A × List Effect :=
  let s2 : CM11A := { s with currentTrans := none }
  if s2.running then
    match s2.transactionQueue with
    | [] => (s2, [])
    | t :: rest => RunTransaction { s2 with transactionQueue := rest } t
  else
    (s2, [.closeSerial])

/-- The fulfilled continuation of `currentTrans.run().then(...)` in
`RunTransaction`: its body is `ctrl.runQueuedTransaction()`. -/
def OnRunResolved (s : CM11A) : CM11A × List Effect :=
  RunQueuedTransaction s

/-- The rejected continuation of `currentTrans.run().then(...)` in
`RunTransaction`: its body is also `ctrl.runQueuedTransaction()`. -/
def OnRunRejected (s : CM11A) : CM11A × List Effect :=
  RunQueuedTransaction s

/-- `SerialWrite(data, timer)`: write `data` to the serial port; if a
timeout duration was supplied, arm `setTimeout` and store its handle in
`this.timer` (the previous handle, if any, is overwritten without being
cleared). -/
def SerialWrite (s : CM11A) (data : List Nat) (timerArg : Option Nat) :
    CM11A × List Effect :=
  match timerArg with
  | none => (s, [.serialWriteData data])
  | some ms =>
      ({ s with
          timer := some s.nextTimerId
          liveTimers := s.liveTimers ++ [s.nextTimerId]
          nextTimerId := s.nextTimerId + 1 },
        [.serialWriteData data, .armTimer s.nextTimerId ms])

/-- `CancelTimer()`: if a timer handle is stored, `clearTimeout` it and
clear the field. -/
def CancelTimer (s : CM11A) : CM11A × List Effect :=
  match s.timer with
  | none => (s, [])
  | some h => ({ s with timer := none, liveTimers := s.liveTimers.erase h },
      [.clearTimer h])

/-- `Timeout()`: the `setTimeout` callback; offers the empty message to
the current transaction, if any. -/
def Timeout (s : CM11A) : CM11A × List Effect :=
  match s.currentTrans with
  | some t => (s, [.offerMessage t []])
  | none => (s, [])

/-- The classification of an unconsumed inbound chunk by its leading
byte, the `if(!usedBuffer)` body of `SerialRead`: a recognized poll
marker constructs the corresponding transaction and passes it to
`RunTransaction`; anything else falls through. -/
def pollClassify (codes : RxCodes) (s : CM11A) (data : List Nat) (b : Nat) :
    CM11A × List Effect :=
  if b = codes.POLL_REQUEST then
    RunTransaction s (.pollResponse data)
  else if b = codes.POLL_POWER_FAIL then
    RunTransaction s .setClock
  else if b = codes.POLL_EEPROM_ADDRESS then
    RunTransaction s (.eepromAddress data)
  else
    (s, [])

/-- `SerialRead(data)`: the serial port's `data` signal handler.
`handleMessage` belongs to the transaction objects of
`CM11ATransactions.js`, outside the verified sources; following the
spec's contract (`handleMessage(bytes) -> bool`, returning whether the
transaction consumed the input) it is modelled by the oracle `hm`, and
the call itself is recorded as an `offerMessage` effect. -/
def SerialRead (codes : RxCodes) (hm : Transaction → List Nat → Bool)
    (s : CM11A) (data : List Nat) : CM11A × List Effect :=
  match data with
  | [] => (s, [])
  | b :: _ =>
      match s.currentTrans with
      | some t =>
          if hm t data then
            (s, [.offerMessage t data])
          else
            let r := pollClassify codes s data b
            (r.1, .offerMessage t data :: r.2)
      | none => pollClassify codes s data b

/-- `NotifyUnitStatus(x10Function, houseCode, level, units)`: invokes the
`unitStatus` listener, if registered, with the object
`{'units': units, 'x10Function': x10Function, 'level': level}`.
The `houseCode` argument is received but not placed in the object. -/
def NotifyUnitStatus (s : CM11A) (x10Function houseCode : Nat)
    (level : Option Nat) (units : List Nat) : List Effect :=
  match s.events.unitStatus with
  | some cb => [.invokeUnitStatus cb ⟨units, x10Function, level⟩]
  | none => []

/-- `NotifyStatus(status)`: invokes the `status` listener, if
registered, with the raw status payload. -/
def NotifyStatus (s : CM11A) (status : List Nat) : List Effect :=
  match s.events.status with
  | some cb => [.invokeStatus cb status]
  | none => []

/-- The external events that drive the engine: each maps to one method
of the `CM11A` object (`Start` is `startCalled`; the settling of the
current transaction's `run()` future is `transComplete`, covering both
the fulfilled and the rejected continuation, whose bodies coincide). -/
inductive EngineEvent where
  | startCalled (device : String)
  | stopCalled
  | submit (t : Transaction)
  | transComplete
  | dataReceived (data : List Nat)
  | closedSignal
  | timerFired
  | writeFrame (data : List Nat) (timerArg : Option Nat)
  | cancelTimerCalled
deriving DecidableEq, Repr

/-- One step of the engine: dispatch an external event to the method the
source binds it to. -/
def step (codes : RxCodes) (hm : Transaction → List Nat → Bool)
    (s : CM11A) : EngineEvent → CM11A × List Effect
  | .startCalled device => ((Start s device).1, (Start s device).2.1)
  | .stopCalled => Stop s
  | .submit t => RunTransaction s t
  | .transComplete => RunQueuedTransaction s
  | .dataReceived data => SerialRead codes hm s data
  | .closedSignal => Stopped s
  | .timerFired => Timeout s
  | .writeFrame data timerArg => SerialWrite s data timerArg
  | .cancelTimerCalled => CancelTimer s

/-! ### Sample fixtures used by witness theorems -/

/-- A sample code table with the three poll markers pairwise distinct
(the spec requires the Code Table to map the three markers to byte
values; any injective assignment exercises the routing). -/
def sampleCodes : RxCodes := ⟨90, 165, 91⟩

/-- A sample transaction. -/
def tA : Transaction := .statusRequest

/-- Another sample transaction. -/
def tB : Transaction := .command 2 [3] none

/-- A consumption oracle that always declines. -/
def hmFalse : Transaction → List Nat → Bool := fun _ _ => false

/-- A consumption oracle that always consumes. -/
def hmTrue : Transaction → List Nat → Bool := fun _ _ => true

/-- A started engine with nothing in flight. -/
def idleRunning : CM11A :=
  { NewCm11A with serial := .opened "dev", running := true }

/-- A started engine with transaction `tA` in flight. -/
def busyRunning : CM11A := { idleRunning with currentTrans := some tA }

/-! ### Helper lemmas -/

theorem RunTransaction_not_running (s : CM11A) (t : Transaction)
    (h : s.running = false) : RunTransaction s t = (s, []) := by
  simp [RunTransaction, h]

theorem RunTransaction_fst_running (s : CM11A) (t : Transaction) :
    (RunTransaction s t).1.running = s.running := by
  rcases hr : s.running <;> rcases hc : s.currentTrans <;>
    simp [RunTransaction, hr, hc]

theorem pollClassify_not_running (codes : RxCodes) (s : CM11A)
    (data : List Nat) (b : Nat) (h : s.running = false) :
    pollClassify codes s data b = (s, []) := by
  unfold pollClassify
  split_ifs <;> simp [RunTransaction_not_running _ _ h]

theorem pollClassify_fst_running (codes : RxCodes) (s : CM11A)
    (data : List Nat) (b : Nat) :
    (pollClassify codes s data b).1.running = s.running := by
  unfold pollClassify
  split_ifs <;> simp [RunTransaction_fst_running]

theorem SerialRead_fst_running (codes : RxCodes)
    (hm : Transaction → List Nat → Bool) (s : CM11A) (data : List Nat) :
    (SerialRead codes hm s data).1.running = s.running := by
  unfold SerialRead
  cases data with
  | nil => rfl
  | cons b rest =>
    cases hc : s.currentTrans with
    | none => simp [pollClassify_fst_running]
    | some t =>
      by_cases hhm : hm t (b :: rest) <;> simp [hhm, pollClassify_fst_running]

theorem SerialRead_not_running (codes : RxCodes)
    (hm : Transaction → List Nat → Bool) (s : CM11A) (data : List Nat)
    (h : s.running = false) :
    (SerialRead codes hm s data).1 = s ∧
    ∀ t, Effect.startTrans t ∉ (SerialRead codes hm s data).2 := by
  unfold SerialRead
  cases data with
  | nil => simp
  | cons b rest =>
    cases hc : s.currentTrans with
    | none => simp [pollClassify_not_running codes s _ b h]
    | some t =>
      by_cases hhm : hm t (b :: rest) <;>
        simp [hhm, pollClassify_not_running codes s _ b h]

theorem RunQueuedTransaction_fst_running (s : CM11A) :
    (RunQueuedTransaction s).1.running = s.running := by
  unfold RunQueuedTransaction
  rcases hr : s.running <;> simp [hr]
  cases s.transactionQueue <;> simp [RunTransaction_fst_running]

/-! ### Claim theorems -/

/-- C2: for every transaction submitted via `RunTransaction`: if the
engine is not running the submission is a no-op (no error, state
unchanged, no effect); if running with an empty current slot the
transaction becomes current and is started (`run()` is invoked);
otherwise it is appended to the end of the pending queue. -/
theorem RunTransaction_spec (s : CM11A) (t : Transaction) :
    (s.running = false → RunTransaction s t = (s, [])) ∧
    (s.running = true → s.currentTrans = none →
      RunTransaction s t =
        ({ s with currentTrans := some t }, [.startTrans t])) ∧
    (∀ c, s.running = true → s.currentTrans = some c →
      RunTransaction s t =
        ({ s with transactionQueue := s.transactionQueue ++ [t] }, [])) := by
  refine ⟨fun h => ?_, fun h1 h2 => ?_, fun c h1 h2 => ?_⟩ <;>
    simp [RunTransaction, *]

/-- C2 witness: concrete instances of the three branches of
`RunTransaction_spec`. -/
theorem RunTransaction_spec_witness :
    RunTransaction NewCm11A tA = (NewCm11A, []) ∧
    RunTransaction idleRunning tA =
      ({ idleRunning with currentTrans := some tA }, [.startTrans tA]) ∧
    RunTransaction busyRunning tB =
      ({ busyRunning with transactionQueue := [tB] }, []) :=
  ⟨(RunTransaction_spec NewCm11A tA).1 rfl,
    (RunTransaction_spec idleRunning tA).2.1 rfl rfl,
    (RunTransaction_spec busyRunning tB).2.2 tA rfl rfl⟩

/-- C1: both continuations attached to the current transaction's `run()`
future coincide (success and failure are scheduled identically); on
completion the engine clears the current slot, and, if still running
with a non-empty queue, dequeues the queue head (FIFO) and starts it;
if running with an empty queue it goes idle; if not running it closes
the serial port instead of dequeuing. -/
theorem RunQueuedTransaction_spec (s : CM11A) :
    OnRunResolved s = OnRunRejected s ∧
    (∀ t rest, s.running = true → s.transactionQueue = t :: rest →
      RunQueuedTransaction s =
        ({ s with currentTrans := some t, transactionQueue := rest },
          [.startTrans t])) ∧
    (s.running = true → s.transactionQueue = [] →
      RunQueuedTransaction s = ({ s with currentTrans := none }, [])) ∧
    (s.running = false →
      RunQueuedTransaction s =
        ({ s with currentTrans := none }, [.closeSerial])) := by
  refine ⟨rfl, fun t rest h1 h2 => ?_, fun h1 h2 => ?_, fun h => ?_⟩ <;>
    simp [RunQueuedTransaction, RunTransaction, *]

/-- C1 witness: with the engine running and `tB` queued, completion of
the current transaction clears the slot, dequeues `tB` and starts it;
with the engine stopped, completion closes the serial port. -/
theorem RunQueuedTransaction_spec_witness :
    RunQueuedTransaction { busyRunning with transactionQueue := [tB] } =
      ({ busyRunning with currentTrans := some tB, transactionQueue := [] },
        [.startTrans tB]) ∧
    RunQueuedTransaction { busyRunning with running := false } =
      ({ busyRunning with running := false, currentTrans := none },
        [.closeSerial]) :=
  ⟨(RunQueuedTransaction_spec _).2.1 tB [] rfl rfl,
    (RunQueuedTransaction_spec _).2.2.2 rfl⟩

/-- C3: for every inbound chunk: an empty chunk is ignored; a non-empty
chunk is first offered to the current transaction via `handleMessage`;
if it is consumed nothing else happens; if it is declined (or there is
no current transaction) the leading byte is classified against the poll
markers, a poll-request marker passing exactly one new `pollResponse`,
a power-fail marker exactly one `setClock`, and an eeprom-address marker
exactly one `eepromAddress` transaction to `RunTransaction`, and any
other leading byte with no current transaction is silently dropped. -/
theorem SerialRead_spec (codes : RxCodes)
    (hm : Transaction → List Nat → Bool) (s : CM11A) (data : List Nat) :
    (SerialRead codes hm s [] = (s, [])) ∧
    (∀ t, s.currentTrans = some t → data ≠ [] → hm t data = true →
      SerialRead codes hm s data = (s, [.offerMessage t data])) ∧
    (∀ t b rest, s.currentTrans = some t → data = b :: rest →
      hm t data = false →
      SerialRead codes hm s data =
        ((pollClassify codes s data b).1,
          .offerMessage t data :: (pollClassify codes s data b).2)) ∧
    (∀ b rest, s.currentTrans = none → data = b :: rest →
      SerialRead codes hm s data = pollClassify codes s data b) ∧
    (∀ b, b = codes.POLL_REQUEST →
      pollClassify codes s data b = RunTransaction s (.pollResponse data)) ∧
    (∀ b, b ≠ codes.POLL_REQUEST → b = codes.POLL_POWER_FAIL →
      pollClassify codes s data b = RunTransaction s .setClock) ∧
    (∀ b, b ≠ codes.POLL_REQUEST → b ≠ codes.POLL_POWER_FAIL →
      b = codes.POLL_EEPROM_ADDRESS →
      pollClassify codes s data b = RunTransaction s (.eepromAddress data)) ∧
    (∀ b, b ≠ codes.POLL_REQUEST → b ≠ codes.POLL_POWER_FAIL →
      b ≠ codes.POLL_EEPROM_ADDRESS →
      pollClassify codes s data b = (s, [])) := by
  refine ⟨rfl, fun t ht hd hhm => ?_, fun t b rest ht hd hhm => ?_,
    fun b rest hc hd => ?_, fun b hb => ?_, fun b hb1 hb2 => ?_,
    fun b hb1 hb2 hb3 => ?_, fun b hb1 hb2 hb3 => ?_⟩
  · cases data with
    | nil => exact absurd rfl hd
    | cons b rest => simp [SerialRead, ht, hhm]
  · subst hd; simp [SerialRead, ht, hhm]
  · subst hd; simp [SerialRead, hc]
  · simp [pollClassify, hb]
  · subst hb2; simp [pollClassify, hb1]
  · subst hb3; simp [pollClassify, hb1, hb2]
  · simp [pollClassify, hb1, hb2, hb3]

/-- C3 witness: with the sample code table (markers 90, 165, 91): a
consumed chunk only reaches the current transaction; with no current
transaction a leading 90 submits exactly one `pollResponse`, a leading
165 exactly one `setClock`, a leading 91 exactly one `eepromAddress`,
and a leading 17 is dropped. -/
theorem SerialRead_spec_witness :
    SerialRead sampleCodes hmTrue busyRunning [90] =
      (busyRunning, [.offerMessage tA [90]]) ∧
    SerialRead sampleCodes hmFalse idleRunning [90, 1] =
      pollClassify sampleCodes idleRunning [90, 1] 90 ∧
    pollClassify sampleCodes idleRunning [90, 1] 90 =
      RunTransaction idleRunning (.pollResponse [90, 1]) ∧
    pollClassify sampleCodes idleRunning [165] 165 =
      RunTransaction idleRunning .setClock ∧
    pollClassify sampleCodes idleRunning [91] 91 =
      RunTransaction idleRunning (.eepromAddress [91]) ∧
    pollClassify sampleCodes idleRunning [17] 17 = (idleRunning, []) :=
  ⟨(SerialRead_spec sampleCodes hmTrue busyRunning [90]).2.1 tA rfl
      (by decide) rfl,
    (SerialRead_spec sampleCodes hmFalse idleRunning [90, 1]).2.2.2.1 90 [1]
      rfl rfl,
    (SerialRead_spec sampleCodes hmFalse idleRunning [90, 1]).2.2.2.2.1 90 rfl,
    (SerialRead_spec sampleCodes hmFalse idleRunning [165]).2.2.2.2.2.1 165
      (by decide) rfl,
    (SerialRead_spec sampleCodes hmFalse idleRunning [91]).2.2.2.2.2.2.1 91
      (by decide) (by decide) rfl,
    (SerialRead_spec sampleCodes hmFalse idleRunning [17]).2.2.2.2.2.2.2 17
      (by decide) (by decide) (by decide)⟩

/-- An engine with an armed, still-pending timer (handle 0). -/
def c4state : CM11A :=
  { idleRunning with timer := some 0, liveTimers := [0], nextTimerId := 1 }

/-- C4 counterexample: with timer handle 0 armed and pending,
`SerialWrite` with a timeout arms a second timer without clearing the
first: afterwards two timers are outstanding (handles 0 and 1), the old
handle 0 is still pending, and no `clearTimeout` was issued — refuting
"whenever a new frame write arms a timer, any previously armed timer is
cancelled before the new one is armed" and "at most one timer is ever
outstanding engine-wide". -/
theorem SerialWrite_stale_timer_counterexample :
    (SerialWrite c4state [4] (some 100)).1.liveTimers = [0, 1] ∧
    (SerialWrite c4state [4] (some 100)).1.timer = some 1 ∧
    ¬ (SerialWrite c4state [4] (some 100)).1.liveTimers.length ≤ 1 ∧
    Effect.clearTimer 0 ∉ (SerialWrite c4state [4] (some 100)).2 := by
  refine ⟨rfl, rfl, by decide, by decide⟩

/-- C4 (amended): `SerialWrite` with a timeout argument arms a fresh
timer and overwrites the engine's `timer` slot with the new handle
without cancelling the previous one — a previously armed pending timer
remains outstanding and no `clearTimeout` is issued by the write; timers
are cancelled only by the explicit `CancelTimer` operation, which clears
the stored handle. -/
theorem SerialWrite_timer_overwrite_spec (s : CM11A) (data : List Nat)
    (ms : Nat) (h0 : Nat) :
    ((SerialWrite s data (some ms)).1.timer = some s.nextTimerId) ∧
    ((SerialWrite s data (some ms)).1.liveTimers
      = s.liveTimers ++ [s.nextTimerId]) ∧
    (∀ h1, Effect.clearTimer h1 ∉ (SerialWrite s data (some ms)).2) ∧
    (s.timer = some h0 → h0 ∈ s.liveTimers →
      h0 ∈ (SerialWrite s data (some ms)).1.liveTimers) ∧
    (s.timer = some h0 →
      CancelTimer s =
        ({ s with timer := none, liveTimers := s.liveTimers.erase h0 },
          [.clearTimer h0])) := by
  refine ⟨rfl, rfl, fun h1 => ?_, fun ht hmem => ?_, fun ht => ?_⟩
  · simp [SerialWrite]
  · simp [SerialWrite, hmem]
  · simp [CancelTimer, ht]

/-- C4 (amended) witness: the amended behaviour at the concrete state
`c4state` (pending handle 0): the write stores handle 1, leaves 0
pending, and `CancelTimer` clears handle 0. -/
theorem SerialWrite_timer_overwrite_witness :
    Effect.clearTimer 0 ∉ (SerialWrite c4state [4] (some 100)).2 ∧
    0 ∈ (SerialWrite c4state [4] (some 100)).1.liveTimers ∧
    CancelTimer c4state =
      ({ c4state with timer := none, liveTimers := [] }, [.clearTimer 0]) :=
  ⟨(SerialWrite_timer_overwrite_spec c4state [4] 100 0).2.2.1 0,
    (SerialWrite_timer_overwrite_spec c4state [4] 100 0).2.2.2.1 rfl
      (by decide),
    (SerialWrite_timer_overwrite_spec c4state [4] 100 0).2.2.2.2 rfl⟩

/-- C5: if `Stop` is called with a transaction in flight, the only state
change is clearing `running` (the current transaction is untouched and
no abort effect is emitted, so it runs to completion); with nothing in
flight the serial port is closed immediately; once `running` is false,
completion of the in-flight transaction closes the serial port at once,
and no engine event other than a `Start` call ever starts a transaction
or makes the engine running again — so the remaining queued transactions
are never started. -/
theorem Stop_graceful_spec (codes : RxCodes)
    (hm : Transaction → List Nat → Bool) (s : CM11A) :
    (∀ t, s.currentTrans = some t →
      Stop s = ({ s with running := false }, [])) ∧
    (s.currentTrans = none → Stop s = (s, [.closeSerial])) ∧
    (s.running = false →
      RunQueuedTransaction s =
        ({ s with currentTrans := none }, [.closeSerial])) ∧
    (s.running = false → ∀ e : EngineEvent,
      (∀ d, e ≠ EngineEvent.startCalled d) →
      (∀ t, Effect.startTrans t ∉ (step codes hm s e).2) ∧
      (step codes hm s e).1.running = false) := by
  refine ⟨fun t ht => ?_, fun hc => ?_, fun h => ?_, fun h e he => ?_⟩
  · simp [Stop, ht]
  · simp [Stop, hc]
  · simp [RunQueuedTransaction, h]
  · cases e with
    | startCalled d => exact absurd rfl (he d)
    | stopCalled =>
      rcases hc : s.currentTrans <;> simp [step, Stop, hc, h]
    | submit t => simp [step, RunTransaction_not_running s t h, h]
    | transComplete => simp [step, RunQueuedTransaction, h]
    | dataReceived data =>
      have hsr := SerialRead_not_running codes hm s data h
      exact ⟨hsr.2,
        by show (SerialRead codes hm s data).1.running = false
           rw [hsr.1]; exact h⟩
    | closedSignal =>
      rcases hcb : s.events.close <;> simp [step, Stopped, hcb]
    | timerFired =>
      rcases hc : s.currentTrans <;> simp [step, Timeout, hc, h]
    | writeFrame data timerArg =>
      rcases timerArg <;> simp [step, SerialWrite, h]
    | cancelTimerCalled =>
      rcases htm : s.timer <;> simp [step, CancelTimer, htm, h]

/-- The engine of `busyRunning` after `Stop` was called with `tA` in
flight and `tB` still queued. -/
def stoppingBusy : CM11A :=
  { busyRunning with running := false, transactionQueue := [tB] }

/-- C5 witness: concrete instances — `Stop` on a busy engine only clears
`running`; after that, completion closes the serial port without
starting the queued `tB`, and a data chunk arriving in that state starts
nothing either. -/
theorem Stop_graceful_witness :
    Stop busyRunning = ({ busyRunning with running := false }, []) ∧
    RunQueuedTransaction stoppingBusy =
      ({ stoppingBusy with currentTrans := none }, [.closeSerial]) ∧
    Effect.startTrans tB ∉
      (step sampleCodes hmFalse stoppingBusy .transComplete).2 ∧
    Effect.startTrans tB ∉
      (step sampleCodes hmFalse stoppingBusy (.dataReceived [90])).2 :=
  ⟨(Stop_graceful_spec sampleCodes hmFalse busyRunning).1 tA rfl,
    (Stop_graceful_spec sampleCodes hmFalse stoppingBusy).2.2.1 rfl,
    ((Stop_graceful_spec sampleCodes hmFalse stoppingBusy).2.2.2 rfl
      .transComplete (fun d h => by cases h)).1 tB,
    ((Stop_graceful_spec sampleCodes hmFalse stoppingBusy).2.2.2 rfl
      (.dataReceived [90]) (fun d h => by cases h)).1 tB⟩

/-- C10: `Stop` with nothing in flight changes no engine state at all
(in particular `running` stays `true` if it was) and only requests the
serial-port close; while nothing is in flight, the only engine event
that flips `running` from `true` to `false` is the close signal
(`Stopped`), which always forces `running` to `false`; hence a
transaction submitted between `Stop` and the close signal is still
accepted and started. -/
theorem Stop_window_spec (codes : RxCodes)
    (hm : Transaction → List Nat → Bool) (s : CM11A) :
    (s.currentTrans = none → Stop s = (s, [.closeSerial])) ∧
    (∀ e : EngineEvent, s.running = true → s.currentTrans = none →
      (step codes hm s e).1.running = false → e = .closedSignal) ∧
    ((Stopped s).1.running = false) ∧
    (∀ t, s.running = true → s.currentTrans = none →
      RunTransaction s t =
        ({ s with currentTrans := some t }, [.startTrans t])) := by
  refine ⟨fun hc => ?_, fun e hr hc hstep => ?_, rfl, fun t hr hc => ?_⟩
  · simp [Stop, hc]
  · cases e with
    | startCalled d =>
      rw [step] at hstep
      rcases hb : s.running <;> simp [Start, hb] at hstep
    | stopCalled => rw [step, Stop, hc] at hstep; simp_all
    | submit t =>
      rw [step] at hstep
      rw [RunTransaction_fst_running] at hstep
      simp_all
    | transComplete =>
      rw [step] at hstep
      rw [RunQueuedTransaction_fst_running] at hstep
      simp_all
    | dataReceived data =>
      rw [step] at hstep
      rw [SerialRead_fst_running] at hstep
      simp_all
    | closedSignal => rfl
    | timerFired =>
      rw [step, Timeout] at hstep
      rcases hcc : s.currentTrans <;> simp [hcc] at hstep <;> simp_all
    | writeFrame data timerArg =>
      rw [step] at hstep
      rcases timerArg <;> simp [SerialWrite] at hstep <;> simp_all
    | cancelTimerCalled =>
      rw [step, CancelTimer] at hstep
      rcases htm : s.timer <;> simp [htm] at hstep <;> simp_all
  · simp [RunTransaction, hr, hc]

/-- C10 witness: on the idle running engine, `Stop` leaves the state
(and so `running = true`) unchanged and only requests the close; the
`submit` event in that window does not clear `running` (so by the
theorem the only running-clearing event is the close signal, which does
clear it); and a transaction submitted in the window is accepted and
started. -/
theorem Stop_window_witness :
    Stop idleRunning = (idleRunning, [.closeSerial]) ∧
    (Stopped idleRunning).1.running = false ∧
    RunTransaction idleRunning tB =
      ({ idleRunning with currentTrans := some tB }, [.startTrans tB]) :=
  ⟨(Stop_window_spec sampleCodes hmFalse idleRunning).1 rfl,
    (Stop_window_spec sampleCodes hmFalse idleRunning).2.2.1,
    (Stop_window_spec sampleCodes hmFalse idleRunning).2.2.2 tB rfl rfl⟩

/-- C6: every delivery of the serial port's close signal (`Stopped`)
forces `running` to `false` and invokes the registered `close` listener
exactly once (the effect list of the delivery is exactly one invocation),
or nothing if none is registered; in particular, registering a `close`
listener and then calling `Stop` with nothing in flight requests the
close without touching the state, and the subsequent close signal
invokes the listener exactly once and leaves `running = false`. -/
theorem Stopped_close_spec (s : CM11A) :
    (∀ cb, s.events.close = some cb →
      Stopped s = ({ s with running := false }, [.invokeClose cb])) ∧
    (s.events.close = none → Stopped s = ({ s with running := false }, [])) ∧
    (∀ cb s1, s.currentTrans = none →
      SetEvent s "close" (.fn cb) = .ok s1 →
      Stop s1 = (s1, [.closeSerial]) ∧
      Stopped s1 = ({ s1 with running := false }, [.invokeClose cb]) ∧
      (Stopped s1).1.running = false) := by
  refine ⟨fun cb hcb => ?_, fun hcb => ?_, fun cb s1 hc hreg => ?_⟩
  · simp [Stopped, hcb]
  · simp [Stopped, hcb]
  · simp [SetEvent, eventsHasOwnProperty, setEventSlot] at hreg
    subst hreg
    exact ⟨by simp [Stop, hc], by simp [Stopped], rfl⟩

/-- The idle running engine with close listener 3 registered. -/
def closeRegistered : CM11A :=
  { idleRunning with
      events := { unitStatus := none, status := none, close := some 3 } }

/-- C6 witness: registering close listener 3 on the idle running engine
and running the stop-then-close-signal sequence invokes listener 3
exactly once and leaves `running = false`. -/
theorem Stopped_close_witness :
    Stop closeRegistered = (closeRegistered, [.closeSerial]) ∧
    Stopped closeRegistered =
      ({ closeRegistered with running := false }, [.invokeClose 3]) ∧
    (Stopped closeRegistered).1.running = false :=
  (Stopped_close_spec idleRunning).2.2 3 closeRegistered rfl rfl

/-- The idle running engine with unit-status listener 7 registered. -/
def unitStatusRegistered : CM11A :=
  { idleRunning with
      events := { unitStatus := some 7, status := none, close := none } }

/-- C7: the event object `NotifyUnitStatus` delivers to the registered
unit-status listener carries only the unit list, the function code and
the level: at a concrete decoded event (function 1, house code 4,
level 5, units 2 and 3) the listener receives
`{units := [2, 3], x10Function := 1, level := some 5}`, and changing the
house code argument (4 to 9) leaves the delivered event identical — the
house code, though received as a parameter, is dropped from the payload,
contradicting the claim that the listener receives it. -/
theorem NotifyUnitStatus_drops_houseCode :
    NotifyUnitStatus unitStatusRegistered 1 4 (some 5) [2, 3] =
      [.invokeUnitStatus 7 ⟨[2, 3], 1, some 5⟩] ∧
    NotifyUnitStatus unitStatusRegistered 1 4 (some 5) [2, 3] =
      NotifyUnitStatus unitStatusRegistered 1 9 (some 5) [2, 3] :=
  ⟨rfl, rfl⟩

/-- C8: `SetEvent` raises `Invalid event` synchronously when the event
name is not one of the three recognized keys, raises the callback error
when the argument is not a function, and otherwise stores the callback
in exactly that event's slot — replacing any previous callback there,
leaving the other two slots alone, and changing no other engine state
(the resulting state differs from `s` only in `events`). -/
theorem SetEvent_spec (s : CM11A) (event : String) (cb : CBArg) (id : Nat) :
    (eventsHasOwnProperty event = false →
      SetEvent s event cb = .error ("Invalid event: " ++ event)) ∧
    (eventsHasOwnProperty event = true →
      SetEvent s event .notFn = .error "Expected function for callBack.") ∧
    (eventsHasOwnProperty event = true →
      SetEvent s event (.fn id) =
        .ok { s with events := setEventSlot s.events event id }) ∧
    ((setEventSlot s.events "unitStatus" id).unitStatus = some id ∧
      (setEventSlot s.events "unitStatus" id).status = s.events.status ∧
      (setEventSlot s.events "unitStatus" id).close = s.events.close) ∧
    ((setEventSlot s.events "status" id).status = some id ∧
      (setEventSlot s.events "status" id).unitStatus = s.events.unitStatus ∧
      (setEventSlot s.events "status" id).close = s.events.close) ∧
    ((setEventSlot s.events "close" id).close = some id ∧
      (setEventSlot s.events "close" id).unitStatus = s.events.unitStatus ∧
      (setEventSlot s.events "close" id).status = s.events.status) := by
  refine ⟨fun h => ?_, fun h => ?_, fun h => ?_, ?_, ?_, ?_⟩ <;>
    simp [SetEvent, setEventSlot, *]

/-- C8 witness: on a fresh engine, registering under the unknown name
"bogus" and registering a non-function both raise, and registering
function 5 under "status" stores it in the status slot, leaving the
other slots and all non-event state untouched. -/
theorem SetEvent_spec_witness :
    SetEvent NewCm11A "bogus" (.fn 5) = .error "Invalid event: bogus" ∧
    SetEvent NewCm11A "status" .notFn =
      .error "Expected function for callBack." ∧
    SetEvent NewCm11A "status" (.fn 5) =
      .ok { NewCm11A with
              events := setEventSlot NewCm11A.events "status" 5 } ∧
    (setEventSlot NewCm11A.events "status" 5).status = some 5 ∧
    (setEventSlot NewCm11A.events "status" 5).close = NewCm11A.events.close :=
  ⟨(SetEvent_spec NewCm11A "bogus" (.fn 5) 5).1 (by decide),
    (SetEvent_spec NewCm11A "status" (.fn 5) 5).2.1 (by decide),
    (SetEvent_spec NewCm11A "status" (.fn 5) 5).2.2.1 (by decide),
    (SetEvent_spec NewCm11A "status" (.fn 5) 5).2.2.2.2.1.1,
    (SetEvent_spec NewCm11A "status" (.fn 5) 5).2.2.2.2.1.2.2⟩

/-- C9: `Start` is idempotent and returns the resulting running state:
if not already running it opens the serial port (subscribing to its
signals) and sets `running` to `true`; if already running it changes
nothing and opens nothing; starting an already-started engine is the
identity; and the returned boolean is the `running` field of the
resulting state, which is always `true`. -/
theorem Start_spec (s : CM11A) (device : String) :
    (s.running = false →
      Start s device =
        ({ s with serial := .opened device, running := true },
          [.openSerial device], true)) ∧
    (s.running = true → Start s device = (s, [], true)) ∧
    (Start (Start s device).1 device = ((Start s device).1, [], true)) ∧
    ((Start s device).2.2 = (Start s device).1.running) ∧
    ((Start s device).2.2 = true) := by
  refine ⟨fun h => ?_, fun h => ?_, ?_, ?_, ?_⟩ <;>
    rcases hr : s.running <;> simp_all [Start]

/-- C9 witness: starting a fresh engine opens the port and returns
`true`; starting it again changes nothing and still returns `true`. -/
theorem Start_spec_witness :
    Start NewCm11A "dev" =
      ({ NewCm11A with serial := .opened "dev", running := true },
        [.openSerial "dev"], true) ∧
    Start (Start NewCm11A "dev").1 "dev" =
      ((Start NewCm11A "dev").1, [], true) :=
  ⟨(Start_spec NewCm11A "dev").1 rfl,
    (Start_spec NewCm11A "dev").2.2.1⟩
